import Mathlib

/-!
Shallow embedding of the core of the `M-B_Rec_Sys-GuessGame` repository:
the character guessing game (`app/models/guessing_game.py`) and the
recommendation engine (`app/models/recommendations.py`), together with
proofs of the specification claims about them.

Conventions of the embedding:
* Python `float` values are modelled as `Rat` (the arithmetic appearing in
  the code — sums, differences, divisions of small decimals — is exact).
* Nullable columns of the database models are `Option` fields.
* Python exceptions are modelled with `Option`/`Except` results.
* The database session is modelled as the list of rows of the relevant
  table, in table order; `query(...).filter(id.in_(ids))` keeps table
  order, `order_by(x.desc())` is a stable descending sort.
-/

namespace RecSys

/-- Python list indexing `l[i]`: non-negative indices are positions from the
front, negative indices count from the back, anything out of range raises
`IndexError` (modelled as `none`). -/
def pyIndex {α : Type} (l : List α) (i : Int) : Option α :=
  if 0 ≤ i then l.get? i.toNat
  else if 0 ≤ (l.length : Int) + i then l.get? ((l.length : Int) + i).toNat
  else none

/-- Banker's rounding of a rational to the nearest integer (ties to even),
matching Python's `round` on exactly-representable values. -/
def roundHalfEven (q : Rat) : Int :=
  if q - ⌊q⌋ < 1 / 2 then ⌊q⌋
  else if 1 / 2 < q - ⌊q⌋ then ⌊q⌋ + 1
  else if ⌊q⌋ % 2 = 0 then ⌊q⌋ else ⌊q⌋ + 1

/-- Python's `round(x, 2)`. -/
def round2 (q : Rat) : Rat := (roundHalfEven (q * 100) : Rat) / 100

/-- Row of the `characters` table (`app/database/models.py`).  The JSON
column `additional_info` is modelled as an optional association list (the
game only ever reads its `"gender"` key); nullable columns are `Option`. -/
structure Character where
  id : Int
  name : String
  type : String
  alignment : Option String
  traits : List String
  genres : List String
  popularity_score : Rat
  source : String
  image_url : Option String
  additional_info : Option (List (String × String))
deriving DecidableEq, Repr

/-- Comparison type of a question of the decision tree. -/
inductive QType where
  | exact
  | nested
  | contains
  | range
deriving DecidableEq, Repr

/-- One question of the decision tree (`_build_question_tree`).  `options`
holds the option list of non-range questions; `rangeOptions` holds the
label-to-interval mapping of the single range question; `condition` is the
optional field-equality gate. -/
structure Question where
  qid : Nat
  question : String
  field : String
  qtype : QType
  options : List String
  rangeOptions : List (String × Rat × Rat)
  condition : Option (List (String × String))
deriving DecidableEq, Repr

instance : Inhabited Question :=
  ⟨⟨0, "", "", QType.exact, [], [], none⟩⟩

/-- The fixed six-question tree built by
`CharacterGuessingGame._build_question_tree`. -/
def questionTree : List Question :=
  [ { qid := 1, question := "Is this character from anime or a real actor?",
      field := "type", qtype := QType.exact,
      options := ["anime", "actor"], rangeOptions := [], condition := none },
    { qid := 2, question := "What gender is this character?",
      field := "additional_info.gender", qtype := QType.nested,
      options := ["male", "female"], rangeOptions := [], condition := none },
    { qid := 3, question := "Is this character a hero, villain, or anti-hero?",
      field := "alignment", qtype := QType.exact,
      options := ["hero", "villain", "anti-hero"], rangeOptions := [],
      condition := some [("type", "anime")] },
    { qid := 4, question := "Which trait best describes this character?",
      field := "traits", qtype := QType.contains,
      options := ["funny", "serious", "determined", "intelligent",
                  "mysterious", "strong", "charismatic"],
      rangeOptions := [], condition := none },
    { qid := 5, question := "What genre is their main work?",
      field := "genres", qtype := QType.contains,
      options := ["action", "comedy", "drama", "thriller",
                  "sci-fi", "adventure", "mystery"],
      rangeOptions := [], condition := none },
    { qid := 6, question := "How popular/famous is this character?",
      field := "popularity_score", qtype := QType.range,
      options := [],
      rangeOptions := [("Extremely famous (everyone knows them)", (95, 100)),
                       ("Very famous", (90, 94)),
                       ("Well-known", (85, 89)),
                       ("Moderately known", (0, 84))],
      condition := none } ]

/-- Python `getattr(char, field, None)` restricted to the string-valued
columns the exact questions and conditions read. -/
def getattrStr (c : Character) (f : String) : Option String :=
  if f = "type" then some c.type
  else if f = "alignment" then c.alignment
  else if f = "name" then some c.name
  else if f = "source" then some c.source
  else none

/-- Python `getattr(char, field, [])` restricted to the list-valued columns
the contains questions read. -/
def getattrList (c : Character) (f : String) : List String :=
  if f = "traits" then c.traits
  else if f = "genres" then c.genres
  else []

/-- Python `getattr(char, field, 0)` restricted to the numeric columns the
range question reads. -/
def getattrRat (c : Character) (f : String) : Rat :=
  if f = "popularity_score" then c.popularity_score else 0

/-- The nested lookup `char.additional_info.get('gender') if
char.additional_info else None` (an empty dict is falsy, like `None`). -/
def genderOf (c : Character) : Option String :=
  match c.additional_info with
  | none => none
  | some info => if info.isEmpty then none else info.lookup "gender"

/-- Whether one character matches the supplied answer to a question: the
per-comparison-type `match` computation in the loop body of
`_filter_candidates`. -/
def charMatches (c : Character) (q : Question) (answer : String) : Bool :=
  match q.qtype with
  | QType.exact => getattrStr c q.field == some answer
  | QType.nested =>
      if q.field = "additional_info.gender" then genderOf c == some answer
      else false
  | QType.contains => decide (answer ∈ getattrList c q.field)
  | QType.range =>
      match q.rangeOptions.lookup answer with
      | some (lo, hi) =>
          decide (lo ≤ getattrRat c q.field ∧ getattrRat c q.field ≤ hi)
      | none => false

/-- The `filtered` list built by the loop of `_filter_candidates`: ids of
the candidate characters matching the answer, in table order. -/
def raw_filter (db : List Character) (candidate_ids : List Int)
    (q : Question) (answer : String) : List Int :=
  (((db.filter (fun c => decide (c.id ∈ candidate_ids))).filter
      (fun c => charMatches c q answer)).map (fun c => c.id))

/-- `CharacterGuessingGame._filter_candidates`, including the dead-end
guard `return filtered if filtered else candidate_ids`. -/
def filter_candidates (db : List Character) (candidate_ids : List Int)
    (q : Question) (answer : String) : List Int :=
  let filtered := raw_filter db candidate_ids q answer
  if filtered.isEmpty then candidate_ids else filtered

/-- `CharacterGuessingGame._check_condition`: sample the first candidate id
and test every field-value pair of the condition on it. -/
def check_condition (db : List Character) (condition : List (String × String))
    (candidate_ids : List Int) : Bool :=
  match candidate_ids with
  | [] => false
  | cid :: _ =>
      match db.find? (fun c => c.id == cid) with
      | none => false
      | some sample =>
          condition.all (fun fv => getattrStr sample fv.1 == some fv.2)

/-- `CharacterGuessingGame._calculate_confidence`; the Python float
literals 95.0, 80.0, 65.0, 50.0, 35.0 are the integer rationals below. -/
def calculate_confidence (num_candidates : Nat) : Rat :=
  if num_candidates = 1 then 95
  else if num_candidates = 2 then 80
  else if num_candidates = 3 then 65
  else if num_candidates ≤ 5 then 50
  else 35

/-- One entry of the guess list returned by `_make_guess`. -/
structure Guess where
  id : Int
  name : String
  type : String
  source : String
  confidence : Rat
  image_url : Option String
deriving DecidableEq, Repr

/-- Result of `answer_question`: the `status='continue'` payload (next
question, its 1-based number, remaining count and the candidate ids passed
back to the caller) or the `status='guess'` payload of `_make_guess`. -/
inductive GameResult where
  | nextQuestion (q : Question) (question_number : Int)
      (remaining_candidates : Nat) (candidate_ids : List Int)
  | guess (guesses : List Guess) (total_questions : Int)
deriving DecidableEq, Repr

/-- `CharacterGuessingGame._make_guess`: the candidates are fetched by id,
ordered by `popularity_score` descending, limited to 3; every guess gets
the confidence computed from `len(candidate_ids)`. -/
def make_guess (db : List Character) (candidate_ids : List Int)
    (questions_asked : Int) : GameResult :=
  let rows := List.insertionSort
      (fun a b => b.popularity_score ≤ a.popularity_score)
      (db.filter (fun c => decide (c.id ∈ candidate_ids)))
  let top := rows.take 3
  GameResult.guess
    (top.map (fun c =>
      { id := c.id, name := c.name, type := c.type, source := c.source,
        confidence := calculate_confidence candidate_ids.length,
        image_url := c.image_url }))
    questions_asked

/-- Result of the question-scan loop of `answer_question`. -/
inductive ScanResult where
  | found (idx : Int) (q : Question)
  | exhausted
  | indexError
deriving DecidableEq, Repr

/-- The `while next_question_idx < len(self.question_tree)` loop of
`answer_question`, which skips conditional questions whose condition the
sampled candidate fails.  The loop body runs at most 13 times for any
start index (an index below `-6` raises at once, and from `-6` the index
can only grow to `6`), so the fuel of 16 never runs out. -/
def scan_next (db : List Character) (cands : List Int) :
    Nat → Int → ScanResult
  | 0, _ => ScanResult.exhausted
  | fuel + 1, idx =>
      if idx < (questionTree.length : Int) then
        match pyIndex questionTree idx with
        | none => ScanResult.indexError
        | some q =>
            match q.condition with
            | none => ScanResult.found idx q
            | some cond =>
                if check_condition db cond cands then ScanResult.found idx q
                else scan_next db cands fuel (idx + 1)
      else ScanResult.exhausted

/-- `CharacterGuessingGame.answer_question`.  The session id is ignored by
the computation (it is only printed).  A `none` result is an uncaught
`IndexError` from indexing the question tree. -/
def answer_question (db : List Character) (question_number : Int)
    (answer : String) (candidate_ids : List Int) : Option GameResult :=
  match pyIndex questionTree (question_number - 1) with
  | none => none
  | some question =>
      let new_candidates := filter_candidates db candidate_ids question answer
      if new_candidates.length ≤ 3 ∨ 6 ≤ question_number then
        some (make_guess db new_candidates question_number)
      else
        match scan_next db new_candidates 16 question_number with
        | ScanResult.indexError => none
        | ScanResult.exhausted =>
            some (make_guess db new_candidates question_number)
        | ScanResult.found idx q =>
            some (GameResult.nextQuestion q (idx + 1)
              new_candidates.length new_candidates)

/-- The fields of the `GameStartResponse` schema (`app/schemas.py`): the
response of `start_game` carries only the candidate count, never the ids. -/
structure GameStartResponse where
  session_id : String
  question : String
  options : List String
  question_number : Nat
  total_candidates : Nat
deriving DecidableEq, Repr

/-- `CharacterGuessingGame.start_game`.  The random uuid is modelled as the
parameter `session_id`. -/
def start_game (db : List Character) (session_id : String) :
    GameStartResponse :=
  let candidate_ids := db.map (fun c => c.id)
  let first_question := questionTree.headI
  { session_id := session_id,
    question := first_question.question,
    options := first_question.options,
    question_number := 1,
    total_candidates := candidate_ids.length }

/-- One whole play of the game: starting from the supplied question number
and candidate ids, feed the answers one by one, threading the returned
`question_number` and `candidate_ids` into the next call exactly as the
caller-held game state prescribes.  Returns the number of rounds played
and the final guesses, or `none` if the answers run out before a guess (or
an index error occurs). -/
def playAux (db : List Character) :
    List String → Int → List Int → Nat → Option (Nat × List Guess)
  | [], _, _, _ => none
  | a :: rest, qn, cids, rounds =>
      match answer_question db qn a cids with
      | none => none
      | some (GameResult.guess gs _) => some (rounds + 1, gs)
      | some (GameResult.nextQuestion _ qn' _ cids') =>
          playAux db rest qn' cids' (rounds + 1)

/-- A play from the initial state: question 1 over the full roster. -/
def play (db : List Character) (answers : List String) :
    Option (Nat × List Guess) :=
  playAux db answers 1 (db.map (fun c => c.id)) 0

/-- Row of the `movies` table (`app/database/models.py`) restricted to the
columns the engine reads; nullable columns are `Option`. -/
structure Movie where
  id : Int
  tmdb_id : Int
  title : String
  genres : Option (List String)
  release_year : Option Int
  decade : Option Int
  vote_average : Option Rat
  vote_count : Option Int
  popularity : Option Rat
deriving DecidableEq, Repr

/-- The optional preference fields of `recommend_movies` /
`RecommendationRequest`. -/
structure Prefs where
  genres : Option (List String)
  decade : Option String
  mood : Option String
  setting : Option String
  min_rating : Option Rat
deriving DecidableEq, Repr

/-- The constant `mood_map` of `RecommendationEngine.__init__`. -/
def mood_map : List (String × List String) :=
  [("intense", ["Action", "Thriller", "Horror", "War"]),
   ("light-hearted", ["Comedy", "Animation", "Family", "Romance"]),
   ("thought-provoking", ["Drama", "Mystery", "Science Fiction", "Documentary"]),
   ("emotional", ["Drama", "Romance", "Family"]),
   ("suspenseful", ["Thriller", "Mystery", "Horror", "Crime"])]

/-- The constant `setting_map` of `RecommendationEngine.__init__`. -/
def setting_map : List (String × List String) :=
  [("modern", ["Action", "Thriller", "Crime", "Drama"]),
   ("historical", ["History", "War", "Drama"]),
   ("futuristic", ["Science Fiction", "Fantasy"]),
   ("fantasy_world", ["Fantasy", "Adventure", "Animation"])]

/-- Decimal value of a digit string, `none` when empty or when any
character is not a digit. -/
def digitsValAux : List Char → Nat → Option Nat
  | [], acc => some acc
  | c :: cs, acc =>
      if c.isDigit then digitsValAux cs (acc * 10 + (c.toNat - 48)) else none

/-- Python's `int(...)` on a short string: an optional sign followed by
decimal digits (the only shapes a decade string's 4-character prefix can
meaningfully take); every other string raises `ValueError` (`none`).
Exotic accepted forms of Python's parser (surrounding whitespace,
underscores between digits) are not modelled. -/
def pyInt? (s : String) : Option Int :=
  match s.toList with
  | [] => none
  | c :: cs =>
      if c = Char.ofNat 45 then
        (if cs.isEmpty then none else
          (digitsValAux cs 0).map (fun n => -(n : Int)))
      else if c = Char.ofNat 43 then
        (if cs.isEmpty then none else
          (digitsValAux cs 0).map (fun n => (n : Int)))
      else (digitsValAux (c :: cs) 0).map (fun n => (n : Int))

/-- Genre factor of `_calculate_movie_score` (weight 4.0; an absent or
empty preference list is falsy and contributes the neutral 2.0). -/
def genre_term (movie_genres : List String) (genres : Option (List String)) :
    Rat :=
  match genres with
  | some gs =>
      if gs.isEmpty then 2.0
      else ((gs.countP (fun g => decide (g ∈ movie_genres)) : Rat) /
              (gs.length : Rat)) * 4.0
  | none => 2.0

/-- Decade factor of `_calculate_movie_score` (weight 1.5).  A `none`
result is an uncaught Python exception: the `ValueError` of
`int(decade[:4])` on an unparseable decade string, or the `TypeError` of
`abs(None - decade_num)` when the movie's decade is null while the
catalog's whole decade column is null (`numericColumn = false`) — pandas
then leaves the column object-typed, still holding `None`.  When at least
one catalog row has a decade (`numericColumn = true`) the column is
float-typed, a null decade is `NaN`, both the equality and the
`abs(...) == 10` comparison are false and the factor contributes 0.  A
parsed `decade_num` of 0 is falsy, so both guarded branches are skipped
before either comparison can raise. -/
def decade_term (numericColumn : Bool) (movie_decade : Option Int)
    (decade : Option String) : Option Rat :=
  match decade with
  | none => some 0.75
  | some s =>
      if s = "" then some 0.75
      else
        match pyInt? (s.take 4) with
        | none => none
        | some dn =>
            if dn ≠ 0 then
              match movie_decade with
              | some d =>
                  some (if d = dn then 1.5
                    else if (d - dn).natAbs = 10 then 0.75
                    else 0)
              | none => if numericColumn then some 0 else none
            else some 0

/-- Mood factor of `_calculate_movie_score` (weight 2.0, neutral 1.0). -/
def mood_term (movie_genres : List String) (mood : Option String) : Rat :=
  match mood with
  | some mo =>
      match mood_map.lookup mo with
      | some mood_genres =>
          ((mood_genres.countP (fun g => decide (g ∈ movie_genres)) : Rat) /
              (mood_genres.length : Rat)) * 2.0
      | none => 1.0
  | none => 1.0

/-- Setting factor of `_calculate_movie_score` (weight 1.0, neutral 0.5). -/
def setting_term (movie_genres : List String) (setting : Option String) :
    Rat :=
  match setting with
  | some st =>
      match setting_map.lookup st with
      | some setting_genres =>
          ((setting_genres.countP (fun g => decide (g ∈ movie_genres)) : Rat) /
              (setting_genres.length : Rat)) * 1.0
      | none => 0.5
  | none => 0.5

/-- Quality factor of `_calculate_movie_score` (weight 1.5): only added
when the rating is present (`pd.notna`) and positive. -/
def quality_term (vote_average : Option Rat) : Rat :=
  match vote_average with
  | some r => if 0 < r then (r / 10) * 1.5 else 0
  | none => 0

/-- `RecommendationEngine._calculate_movie_score` over one row of the
scored DataFrame: the five weighted factors summed and rounded to 2
decimals; `movie['genres']` is replaced by `[]` when it is not a list.
`numericColumn` records whether the frame's decade column is numeric
(see `decade_term`) — a property of the whole fetched catalog, carried
alongside the row. -/
def calculate_movie_score (numericColumn : Bool) (m : Movie) (p : Prefs) :
    Option Rat :=
  let movie_genres := m.genres.getD []
  match decade_term numericColumn m.decade p.decade with
  | none => none
  | some dt =>
      some (round2 (genre_term movie_genres p.genres + dt +
        mood_term movie_genres p.mood + setting_term movie_genres p.setting +
        quality_term m.vote_average))

/-- Genre factor of `_calculate_similarity` (weight 5.0): Jaccard index of
the two genre sets, 0 when either set is empty. -/
def genre_sim (g1 g2 : Option (List String)) : Rat :=
  if (g1.getD []).toFinset.Nonempty ∧ (g2.getD []).toFinset.Nonempty then
    ((((g1.getD []).toFinset ∩ (g2.getD []).toFinset).card : Rat) /
        (((g1.getD []).toFinset ∪ (g2.getD []).toFinset).card : Rat)) * 5.0
  else 0

/-- Decade factor of `_calculate_similarity` (weight 2.0); a null or zero
decade is falsy and contributes 0. -/
def decade_sim (d1 d2 : Option Int) : Rat :=
  match d1, d2 with
  | some a, some b =>
      if a ≠ 0 ∧ b ≠ 0 then
        if (a - b).natAbs = 0 then 2.0
        else if (a - b).natAbs = 10 then 1.0
        else if (a - b).natAbs = 20 then 0.5
        else 0
      else 0
  | _, _ => 0

/-- Rating factor of `_calculate_similarity` (weight 2.0); a null or zero
rating is falsy and contributes 0. -/
def rating_sim (r1 r2 : Option Rat) : Rat :=
  match r1, r2 with
  | some a, some b =>
      if a ≠ 0 ∧ b ≠ 0 then max 0 ((10 - |a - b|) / 10) * 2.0 else 0
  | _, _ => 0

/-- Popularity factor of `_calculate_similarity` (weight 1.0); a null or
zero popularity is falsy and contributes 0. -/
def popularity_sim (p1 p2 : Option Rat) : Rat :=
  match p1, p2 with
  | some a, some b =>
      if a ≠ 0 ∧ b ≠ 0 then (min a b / max a b) * 1.0 else 0
  | _, _ => 0

/-- `RecommendationEngine._calculate_similarity`: the four factors summed
and rounded to 2 decimals. -/
def calculate_similarity (m1 m2 : Movie) : Rat :=
  round2 (genre_sim m1.genres m2.genres + decade_sim m1.decade m2.decade +
    rating_sim m1.vote_average m2.vote_average +
    popularity_sim m1.popularity m2.popularity)

/-- A row of the similar-movies result. -/
structure SimilarMovie where
  movie : Movie
  similarity_score : Rat
deriving DecidableEq, Repr

/-- `RecommendationEngine.get_similar_movies`: an unknown reference id
gives `[]`; otherwise every other movie is scored against the reference,
sorted by similarity descending (Python's stable sort) and truncated to
`top_n`. -/
def get_similar_movies (movies : List Movie) (movie_id : Int) (top_n : Nat) :
    List SimilarMovie :=
  match movies.find? (fun m => m.id == movie_id) with
  | none => []
  | some reference =>
      let others := movies.filter (fun m => decide (m.id ≠ movie_id))
      let scored := others.map (fun m =>
        SimilarMovie.mk m (calculate_similarity reference m))
      (List.insertionSort
        (fun a b => b.similarity_score ≤ a.similarity_score) scored).take
        top_n

/-- Sample character: an anime hero. -/
def chA : Character :=
  ⟨1, "A", "anime", some "hero", ["funny"], ["action"], 96, "SrcA", none,
    some [("gender", "male")]⟩

/-- Sample character: an anime villain. -/
def chB : Character :=
  ⟨2, "B", "anime", some "villain", ["serious"], ["comedy"], 90, "SrcB", none,
    some [("gender", "female")]⟩

/-- Sample character: an actor. -/
def chC : Character :=
  ⟨3, "C", "actor", none, ["funny"], ["drama"], 80, "SrcC", none,
    some [("gender", "male")]⟩

/-- Sample movie: a well-rated 2020s action movie. -/
def mvA : Movie :=
  ⟨1, 11, "MA", some ["Action", "Sci-Fi"], some 2023, some 2020, some 8,
    some 500, some 150⟩

/-- Sample movie: a 1990s comedy. -/
def mvB : Movie :=
  ⟨2, 12, "MB", some ["Comedy"], some 1995, some 1990, some 5, some 300,
    some 50⟩

/-- Preference profile of the spec's worked example. -/
def prefsExample : Prefs :=
  ⟨some ["Action", "Sci-Fi"], some "2020s", some "intense", none, none⟩

/-- Preference profile with no field supplied. -/
def prefsNone : Prefs := ⟨none, none, none, none, none⟩

theorem roundHalfEven_ge {q : Rat} {n : Int} (h : (n : Rat) ≤ q) :
    n ≤ roundHalfEven q := by
  have hf : n ≤ ⌊q⌋ := Int.le_floor.mpr h
  unfold roundHalfEven
  split_ifs <;> omega

theorem roundHalfEven_le {q : Rat} {n : Int} (h : q ≤ (n : Rat)) :
    roundHalfEven q ≤ n := by
  have hf : ⌊q⌋ ≤ n := by
    have h1 : (⌊q⌋ : Rat) ≤ (n : Rat) := le_trans (Int.floor_le q) h
    exact_mod_cast h1
  have hfl : (⌊q⌋ : Rat) ≤ q := Int.floor_le q
  unfold roundHalfEven
  by_cases h1 : q - ⌊q⌋ < 1 / 2
  · rw [if_pos h1]
    exact hf
  · have hlt : ⌊q⌋ < n := by
      rcases lt_or_eq_of_le hf with h' | h'
      · exact h'
      · exfalso
        apply h1
        have : q ≤ (⌊q⌋ : Rat) := by rw [h']; exact h
        linarith
    simp only [h1, if_false]
    split_ifs <;> omega

theorem round2_bounds {q : Rat} (h0 : 0 ≤ q) (h10 : q ≤ 10) :
    0 ≤ round2 q ∧ round2 q ≤ 10 := by
  have hge : (0 : Int) ≤ roundHalfEven (q * 100) :=
    roundHalfEven_ge (by push_cast; linarith)
  have hle : roundHalfEven (q * 100) ≤ (1000 : Int) :=
    roundHalfEven_le (by push_cast; linarith)
  have hge' : (0 : Rat) ≤ (roundHalfEven (q * 100) : Rat) := by exact_mod_cast hge
  have hle' : ((roundHalfEven (q * 100) : Int) : Rat) ≤ 1000 := by
    exact_mod_cast hle
  unfold round2
  constructor
  · positivity
  · rw [div_le_iff₀ (by norm_num)]
    linarith

theorem ratio_term_bounds (l gs : List String) (w : Rat) (hw : 0 ≤ w)
    (hl : l ≠ []) :
    0 ≤ ((l.countP (fun g => decide (g ∈ gs)) : Rat) / (l.length : Rat)) * w ∧
    ((l.countP (fun g => decide (g ∈ gs)) : Rat) / (l.length : Rat)) * w ≤ w := by
  have hlen : 0 < (l.length : Rat) := by
    have : 0 < l.length := List.length_pos.mpr hl
    exact_mod_cast this
  have hcount : (l.countP (fun g => decide (g ∈ gs)) : Rat) ≤ (l.length : Rat) := by
    exact_mod_cast List.countP_le_length _
  have hratio : ((l.countP (fun g => decide (g ∈ gs)) : Rat) / (l.length : Rat)) ≤ 1 :=
    (div_le_one hlen).mpr hcount
  have hratio0 : 0 ≤ ((l.countP (fun g => decide (g ∈ gs)) : Rat) / (l.length : Rat)) := by
    positivity
  exact ⟨mul_nonneg hratio0 hw, by nlinarith⟩

theorem lookup_snd_mem {l : List (String × List String)} {s : String}
    {v : List String} (h : l.lookup s = some v) : v ∈ l.map Prod.snd := by
  induction l with
  | nil => simp [List.lookup] at h
  | cons x xs ih =>
      rw [List.lookup] at h
      by_cases he : s == x.1
      · simp only [he, cond_true] at h
        cases h
        simp
      · simp only [he, cond_false] at h
        simp [ih h]

theorem pyIndex_nonneg {α : Type} (l : List α) (i : Int) (h : 0 ≤ i) :
    pyIndex l i = l.get? i.toNat := by
  simp [pyIndex, h]

theorem genre_term_bounds (mg : List String) (g : Option (List String)) :
    0 ≤ genre_term mg g ∧ genre_term mg g ≤ 4 := by
  unfold genre_term
  cases g with
  | none => norm_num
  | some gs =>
      cases gs with
      | nil => norm_num
      | cons a t =>
          have h := ratio_term_bounds (a :: t) mg 4.0 (by norm_num)
            (List.cons_ne_nil a t)
          simp only [List.isEmpty_cons, Bool.false_eq_true, if_false]
          exact ⟨h.1, by nlinarith [h.2]⟩

theorem decade_term_bounds (b : Bool) (md : Option Int) (d : Option String)
    (dt : Rat) (h : decade_term b md d = some dt) : 0 ≤ dt ∧ dt ≤ 1.5 := by
  cases d with
  | none =>
      simp only [decade_term, Option.some.injEq] at h
      subst h; norm_num
  | some s =>
      simp only [decade_term] at h
      by_cases he : s = ""
      · rw [if_pos he] at h
        simp only [Option.some.injEq] at h
        subst h; norm_num
      · rw [if_neg he] at h
        cases hp : pyInt? (s.take 4) with
        | none => rw [hp] at h; cases h
        | some dn =>
            rw [hp] at h
            dsimp only at h
            by_cases h0 : dn ≠ 0
            · rw [if_pos h0] at h
              cases md with
              | some dd =>
                  simp only [Option.some.injEq] at h
                  subst h
                  split_ifs <;> norm_num
              | none =>
                  cases b with
                  | false => simp at h
                  | true =>
                      simp at h
                      subst h
                      norm_num
            · rw [if_neg h0] at h
              simp only [Option.some.injEq] at h
              subst h; norm_num

theorem mood_term_bounds (mg : List String) (mo : Option String) :
    0 ≤ mood_term mg mo ∧ mood_term mg mo ≤ 2 := by
  cases mo with
  | none => norm_num [mood_term]
  | some m =>
      simp only [mood_term]
      cases hl : mood_map.lookup m with
      | none => norm_num
      | some mgl =>
          have hmem := lookup_snd_mem hl
          have hne : mgl ≠ [] := by
            fin_cases hmem <;> simp
          have h := ratio_term_bounds mgl mg 2.0 (by norm_num) hne
          exact ⟨h.1, le_trans h.2 (by norm_num)⟩

theorem setting_term_bounds (mg : List String) (st : Option String) :
    0 ≤ setting_term mg st ∧ setting_term mg st ≤ 1 := by
  cases st with
  | none => norm_num [setting_term]
  | some m =>
      simp only [setting_term]
      cases hl : setting_map.lookup m with
      | none => norm_num
      | some sgl =>
          have hmem := lookup_snd_mem hl
          have hne : sgl ≠ [] := by
            fin_cases hmem <;> simp
          have h := ratio_term_bounds sgl mg 1.0 (by norm_num) hne
          exact ⟨h.1, le_trans h.2 (by norm_num)⟩

theorem quality_term_bounds (va : Option Rat) (hv : ∀ r ∈ va, r ≤ 10) :
    0 ≤ quality_term va ∧ quality_term va ≤ 1.5 := by
  cases va with
  | none => norm_num [quality_term]
  | some r =>
      simp only [quality_term]
      have hr : r ≤ 10 := hv r rfl
      by_cases h0 : 0 < r
      · rw [if_pos h0]
        constructor <;> nlinarith
      · rw [if_neg h0]; norm_num

/-- C2: for every catalog item (whose rating, when present, respects the
data-model invariant `rating: float 0-10 | null`), every preference
profile, and either dtype of the decade column, a score returned by
`_calculate_movie_score` lies in the closed interval [0, 10]: each factor
is bounded by its weight, the weights sum to 10, and rounding to two
decimals preserves the integer endpoints. -/
theorem score_in_range (numericDecade : Bool) (m : Movie) (p : Prefs)
    (s : Rat) (hrate : ∀ r ∈ m.vote_average, r ≤ 10)
    (hs : calculate_movie_score numericDecade m p = some s) :
    0 ≤ s ∧ s ≤ 10 := by
  unfold calculate_movie_score at hs
  cases hd : decade_term numericDecade m.decade p.decade with
  | none => rw [hd] at hs; cases hs
  | some dt =>
      rw [hd] at hs
      simp only [Option.some.injEq] at hs
      subst hs
      have h1 := genre_term_bounds (m.genres.getD []) p.genres
      have h2 := decade_term_bounds numericDecade m.decade p.decade dt hd
      have h3 := mood_term_bounds (m.genres.getD []) p.mood
      have h4 := setting_term_bounds (m.genres.getD []) p.setting
      have h5 := quality_term_bounds m.vote_average hrate
      have hb1 : (1.5 : Rat) = 3 / 2 := by norm_num
      exact round2_bounds (by linarith) (by linarith)

/-- Witness for `score_in_range`: the 1990s comedy scores exactly 5 under
an empty preference profile (neutral terms 2 + 0.75 + 1 + 0.5 plus the
quality term 0.75); its one-movie catalog has a numeric decade column. -/
theorem score_in_range_witness : 0 ≤ (5 : Rat) ∧ (5 : Rat) ≤ 10 :=
  score_in_range true mvB prefsNone 5
    (by intro r hr; simp only [mvB, Option.mem_def, Option.some.injEq] at hr;
        subst hr; norm_num)
    (by simp only [calculate_movie_score, decade_term, genre_term, mood_term,
          setting_term, quality_term, mvB, prefsNone]
        norm_num [round2, roundHalfEven])

theorem genre_sim_comm (g1 g2 : Option (List String)) :
    genre_sim g1 g2 = genre_sim g2 g1 := by
  unfold genre_sim
  rw [Finset.inter_comm, Finset.union_comm]
  exact if_congr and_comm rfl rfl

theorem decade_sim_comm (d1 d2 : Option Int) :
    decade_sim d1 d2 = decade_sim d2 d1 := by
  cases d1 with
  | none => cases d2 <;> rfl
  | some a =>
      cases d2 with
      | none => rfl
      | some b =>
          simp only [decade_sim]
          have hab : (a - b).natAbs = (b - a).natAbs := by omega
          rw [hab]
          exact if_congr and_comm rfl rfl

theorem rating_sim_comm (r1 r2 : Option Rat) :
    rating_sim r1 r2 = rating_sim r2 r1 := by
  cases r1 with
  | none => cases r2 <;> rfl
  | some a =>
      cases r2 with
      | none => rfl
      | some b =>
          simp only [rating_sim]
          rw [abs_sub_comm]
          exact if_congr and_comm rfl rfl

theorem popularity_sim_comm (p1 p2 : Option Rat) :
    popularity_sim p1 p2 = popularity_sim p2 p1 := by
  cases p1 with
  | none => cases p2 <;> rfl
  | some a =>
      cases p2 with
      | none => rfl
      | some b =>
          simp only [popularity_sim]
          rw [min_comm a b, max_comm a b]
          exact if_congr and_comm rfl rfl

/-- C5: `_calculate_similarity` is symmetric in its two movies — each of
its four factors (genre Jaccard, decade proximity, rating closeness,
popularity proximity) is invariant under swapping the arguments. -/
theorem similarity_symm (m1 m2 : Movie) :
    calculate_similarity m1 m2 = calculate_similarity m2 m1 := by
  unfold calculate_similarity
  rw [genre_sim_comm, decade_sim_comm, rating_sim_comm, popularity_sim_comm]

/-- C3: the dead-end guard of `_filter_candidates`: whenever the filtered
list is empty the prior candidate ids are returned unchanged, so an answer
never empties a non-empty candidate set. -/
theorem filter_dead_end_guard (db : List Character) (cids : List Int)
    (q : Question) (ans : String) :
    (raw_filter db cids q ans = [] → filter_candidates db cids q ans = cids) ∧
    (cids ≠ [] → filter_candidates db cids q ans ≠ []) := by
  constructor
  · intro h
    simp [filter_candidates, h]
  · intro hne
    unfold filter_candidates
    by_cases h : (raw_filter db cids q ans).isEmpty
    · rw [if_pos h]; exact hne
    · rw [if_neg h]
      simpa [List.isEmpty_iff] using h

/-- Witness for `filter_dead_end_guard`: the answer "zzz" to question 1
matches no character, so the single-candidate set survives unchanged. -/
theorem filter_dead_end_guard_witness :
    filter_candidates [chA] [1] questionTree.headI "zzz" = [1] ∧
    filter_candidates [chA] [1] questionTree.headI "zzz" ≠ [] :=
  ⟨(filter_dead_end_guard [chA] [1] questionTree.headI "zzz").1 (by decide),
   (filter_dead_end_guard [chA] [1] questionTree.headI "zzz").2 (by decide)⟩

/-- C9: `answer_question` does not validate `question_number`: any value
of 7 or more indexes past the six-question tree and raises `IndexError`
(modelled as `none`), while 0 down to -5 silently selects the question at
position `6 + (question_number - 1)` by Python negative indexing. -/
theorem question_number_unvalidated (qn : Int) :
    (7 ≤ qn → ∀ (db : List Character) (ans : String) (cids : List Int),
        answer_question db qn ans cids = none) ∧
    (-5 ≤ qn → qn ≤ 0 →
        pyIndex questionTree (qn - 1) =
          questionTree.get? ((6 : Int) + (qn - 1)).toNat ∧
        (pyIndex questionTree (qn - 1)).isSome = true) := by
  constructor
  · intro h7 db ans cids
    have hlen : questionTree.length = 6 := rfl
    have h1 : pyIndex questionTree (qn - 1) = none := by
      rw [pyIndex_nonneg _ _ (by omega)]
      apply List.get?_eq_none.mpr
      omega
    unfold answer_question
    rw [h1]
  · intro hlo hhi
    interval_cases qn <;> exact ⟨rfl, rfl⟩

/-- Witness for `question_number_unvalidated` at `question_number = 7`
(IndexError) and `question_number = 0` (wraps to the last question). -/
theorem question_number_unvalidated_witness :
    answer_question [] 7 "x" [] = none ∧
    (pyIndex questionTree (0 - 1)).isSome = true :=
  ⟨(question_number_unvalidated 7).1 (by norm_num) [] "x" [],
   ((question_number_unvalidated 0).2 (by norm_num) (by norm_num)).2⟩

theorem scan_next_from_one (db : List Character) (cands : List Int) :
    ∃ q, scan_next db cands 16 1 = ScanResult.found 1 q :=
  ⟨_, rfl⟩

/-- C10: the `start_game` response is fully determined by the session id
and the roster size — it carries the candidate count but never the ids —
and `answer_question` places no constraint on the caller-supplied
`candidate_ids`: it accepts any id list for the first question, and every
candidate id it threads onward comes from that supplied list alone. -/
theorem start_game_returns_only_count :
    (∀ (db : List Character) (sid : String),
        start_game db sid =
          { session_id := sid,
            question := "Is this character from anime or a real actor?",
            options := ["anime", "actor"],
            question_number := 1,
            total_candidates := db.length }) ∧
    (∀ (db : List Character) (ans : String) (cids : List Int),
        (answer_question db 1 ans cids).isSome = true) ∧
    (∀ (db : List Character) (cids : List Int) (q : Question) (ans : String),
        ∀ i ∈ filter_candidates db cids q ans, i ∈ cids) := by
  refine ⟨?_, ?_, ?_⟩
  · intro db sid
    simp only [start_game, List.length_map]
    rfl
  · intro db ans cids
    unfold answer_question
    rw [show pyIndex questionTree (1 - 1) = some questionTree.headI from rfl]
    dsimp only
    split
    · rfl
    · obtain ⟨q, hq⟩ :=
        scan_next_from_one db (filter_candidates db cids questionTree.headI ans)
      rw [hq]
      rfl
  · intro db cids q ans i hi
    unfold filter_candidates at hi
    by_cases h : (raw_filter db cids q ans).isEmpty
    · rw [if_pos h] at hi; exact hi
    · rw [if_neg h] at hi
      unfold raw_filter at hi
      simp only [List.mem_map, List.mem_filter, decide_eq_true_eq] at hi
      obtain ⟨c, ⟨⟨hcdb, hcid⟩, hmatch⟩, rfl⟩ := hi
      exact hcid

/-- Witness for `start_game_returns_only_count`: a roster of one character
gives a count-only response, and an `answer_question` call whose id list
contains an id unknown to the roster is processed all the same. -/
theorem start_game_returns_only_count_witness :
    start_game [chA] "sid" =
      { session_id := "sid",
        question := "Is this character from anime or a real actor?",
        options := ["anime", "actor"],
        question_number := 1,
        total_candidates := 1 } ∧
    (answer_question [chA] 1 "anime" [5, 1]).isSome = true ∧
    (1 : Int) ∈ [(5 : Int), 1] :=
  ⟨start_game_returns_only_count.1 [chA] "sid",
   start_game_returns_only_count.2.1 [chA] "anime" [5, 1],
   start_game_returns_only_count.2.2 [chA] [5, 1] questionTree.headI "anime" 1
     (by decide)⟩

theorem mem_filter_candidates_valid (db : List Character) (cids : List Int)
    (q : Question) (ans : String)
    (hv : ∀ i ∈ cids, ∃ c ∈ db, c.id = i) :
    ∀ i ∈ filter_candidates db cids q ans, ∃ c ∈ db, c.id = i := by
  intro i hi
  unfold filter_candidates at hi
  by_cases h : (raw_filter db cids q ans).isEmpty
  · rw [if_pos h] at hi
    exact hv i hi
  · rw [if_neg h] at hi
    unfold raw_filter at hi
    simp only [List.mem_map, List.mem_filter, decide_eq_true_eq] at hi
    obtain ⟨c, ⟨⟨hcdb, _⟩, _⟩, rfl⟩ := hi
    exact ⟨c, hcdb, rfl⟩

theorem make_guess_spec (db : List Character) (cids : List Int) (qa : Int) :
    ∃ gs, make_guess db cids qa = GameResult.guess gs qa ∧
      (∀ g ∈ gs, g.confidence = calculate_confidence cids.length) ∧
      (cids ≠ [] → (∀ i ∈ cids, ∃ c ∈ db, c.id = i) → gs ≠ []) := by
  refine ⟨_, rfl, ?_, ?_⟩
  · intro g hg
    simp only [List.mem_map] at hg
    obtain ⟨c, _, rfl⟩ := hg
    rfl
  · intro hne hv
    obtain ⟨i, cids', rfl⟩ : ∃ i cids', cids = i :: cids' := by
      cases cids with
      | nil => exact absurd rfl hne
      | cons a t => exact ⟨a, t, rfl⟩
    obtain ⟨c, hcdb, hcid⟩ := hv i (List.mem_cons_self i cids')
    have hmem : c ∈ db.filter (fun c => decide (c.id ∈ i :: cids')) :=
      List.mem_filter.mpr ⟨hcdb, by simp [hcid]⟩
    have hsort : c ∈ List.insertionSort
        (fun a b => b.popularity_score ≤ a.popularity_score)
        (db.filter (fun c => decide (c.id ∈ i :: cids'))) :=
      (List.perm_insertionSort _ _).mem_iff.mpr hmem
    intro hmapnil
    rw [List.map_eq_nil_iff] at hmapnil
    rcases List.take_eq_nil_iff.mp hmapnil with h3 | hnil
    · exact absurd h3 (by norm_num)
    · exact List.ne_nil_of_mem hsort hnil

/-- C6: every guess produced by `_make_guess` carries the confidence
computed from `len(candidate_ids)` alone; the mapping is 1 to 95, 2 to 80,
3 to 65, 4 or 5 to 50, more to 35; and whenever an answer narrows the
candidates to exactly 2, `answer_question` returns the guess status with
confidence 80 for the top-ranked candidate, whatever the (valid) question
number was. -/
theorem confidence_from_candidate_count (db : List Character) :
    (∀ (cids : List Int) (qa : Int), ∃ gs,
        make_guess db cids qa = GameResult.guess gs qa ∧
        ∀ g ∈ gs, g.confidence = calculate_confidence cids.length) ∧
    (calculate_confidence 1 = 95 ∧ calculate_confidence 2 = 80 ∧
      calculate_confidence 3 = 65 ∧ calculate_confidence 4 = 50 ∧
      calculate_confidence 5 = 50 ∧
      ∀ n, 6 ≤ n → calculate_confidence n = 35) ∧
    (∀ (qn : Int) (ans : String) (cids : List Int) (q : Question),
        pyIndex questionTree (qn - 1) = some q →
        (∀ i ∈ cids, ∃ c ∈ db, c.id = i) →
        (filter_candidates db cids q ans).length = 2 →
        ∃ g gs, answer_question db qn ans cids =
            some (GameResult.guess (g :: gs) qn) ∧
          g.confidence = 80 ∧ ∀ g' ∈ gs, g'.confidence = 80) := by
  refine ⟨?_, ?_, ?_⟩
  · intro cids qa
    obtain ⟨gs, h1, h2, _⟩ := make_guess_spec db cids qa
    exact ⟨gs, h1, h2⟩
  · refine ⟨rfl, rfl, rfl, rfl, rfl, ?_⟩
    intro n hn
    unfold calculate_confidence
    rw [if_neg (by omega), if_neg (by omega), if_neg (by omega),
      if_neg (by omega)]
  · intro qn ans cids q hq hv hlen
    have hval := mem_filter_candidates_valid db cids q ans hv
    obtain ⟨gs, hmk, hconf, hne⟩ :=
      make_guess_spec db (filter_candidates db cids q ans) qn
    have hnenil : filter_candidates db cids q ans ≠ [] := by
      intro h
      rw [h] at hlen
      simp at hlen
    obtain ⟨g, gs', rfl⟩ : ∃ g gs', gs = g :: gs' := by
      cases gs with
      | nil => exact absurd rfl (hne hnenil hval)
      | cons a t => exact ⟨a, t, rfl⟩
    refine ⟨g, gs', ?_, ?_, ?_⟩
    · unfold answer_question
      rw [hq]
      dsimp only
      rw [if_pos (Or.inl (by omega)), hmk]
    · rw [hconf g (List.mem_cons_self g gs'), hlen]
      rfl
    · intro g' hg'
      rw [hconf g' (List.mem_cons_of_mem g hg'), hlen]
      rfl

/-- Witness for `confidence_from_candidate_count`: on a three-character
roster, answering "anime" to question 1 narrows the candidates to the two
anime characters and immediately yields guesses with confidence 80. -/
theorem confidence_from_candidate_count_witness :
    ∃ g gs, answer_question [chA, chB, chC] 1 "anime" [1, 2, 3] =
        some (GameResult.guess (g :: gs) 1) ∧
      g.confidence = 80 ∧ ∀ g' ∈ gs, g'.confidence = 80 :=
  (confidence_from_candidate_count [chA, chB, chC]).2.2 1 "anime" [1, 2, 3]
    questionTree.headI rfl (by decide) (by decide)

/-- C7: `get_similar_movies` returns `[]` for an unknown reference id; for
any id the result excludes the reference movie itself, is sorted by
similarity score descending, and has at most `top_n` entries. -/
theorem similar_movies_contract (movies : List Movie) (movie_id : Int)
    (top_n : Nat) :
    ((∀ m ∈ movies, m.id ≠ movie_id) →
        get_similar_movies movies movie_id top_n = []) ∧
    (∀ sm ∈ get_similar_movies movies movie_id top_n,
        sm.movie.id ≠ movie_id) ∧
    List.Pairwise (fun a b => b.similarity_score ≤ a.similarity_score)
      (get_similar_movies movies movie_id top_n) ∧
    (get_similar_movies movies movie_id top_n).length ≤ top_n := by
  have hinst1 : IsTotal SimilarMovie
      (fun a b => b.similarity_score ≤ a.similarity_score) :=
    ⟨fun a b => le_total _ _⟩
  have hinst2 : IsTrans SimilarMovie
      (fun a b => b.similarity_score ≤ a.similarity_score) :=
    ⟨fun _ _ _ h1 h2 => le_trans h2 h1⟩
  refine ⟨?_, ?_, ?_, ?_⟩
  · intro h
    unfold get_similar_movies
    have hf : movies.find? (fun m => m.id == movie_id) = none := by
      rw [List.find?_eq_none]
      intro m hm
      simp [h m hm]
    rw [hf]
  · intro sm hsm
    unfold get_similar_movies at hsm
    cases hf : movies.find? (fun m => m.id == movie_id) with
    | none => rw [hf] at hsm; simp at hsm
    | some ref =>
        rw [hf] at hsm
        have h2 := List.take_subset _ _ hsm
        have h3 := (List.perm_insertionSort _ _).mem_iff.mp h2
        simp only [List.mem_map, List.mem_filter, decide_eq_true_eq] at h3
        obtain ⟨m, ⟨_, hmne⟩, rfl⟩ := h3
        exact hmne
  · unfold get_similar_movies
    cases hf : movies.find? (fun m => m.id == movie_id) with
    | none => simp
    | some ref =>
        have hs := @List.sorted_insertionSort SimilarMovie
          (fun a b => b.similarity_score ≤ a.similarity_score) _ hinst1 hinst2
          ((movies.filter (fun m => decide (m.id ≠ movie_id))).map
            (fun m => SimilarMovie.mk m (calculate_similarity ref m)))
        exact hs.sublist (List.take_sublist _ _)
  · unfold get_similar_movies
    cases hf : movies.find? (fun m => m.id == movie_id) with
    | none => simp
    | some ref => exact List.length_take_le _ _

/-- Witness for `similar_movies_contract`: an unknown id 99 gives the
empty list; a known id gives at most `top_n` results. -/
theorem similar_movies_contract_witness :
    get_similar_movies [mvA, mvB] 99 5 = [] ∧
    (get_similar_movies [mvA, mvB] 1 5).length ≤ 5 :=
  ⟨(similar_movies_contract [mvA, mvB] 99 5).1 (by decide),
   (similar_movies_contract [mvA, mvB] 1 5).2.2.2⟩

theorem pyIndex_questionTree_some (qn : Int) (h1 : 1 ≤ qn) (h6 : qn ≤ 6) :
    ∃ q, pyIndex questionTree (qn - 1) = some q := by
  rw [pyIndex_nonneg _ _ (by omega)]
  have hlt : (qn - 1).toNat < questionTree.length := by
    have hlen : questionTree.length = 6 := rfl
    omega
  exact ⟨_, List.get?_eq_get hlt⟩

theorem filter_candidates_ne_nil (db : List Character) (cids : List Int)
    (q : Question) (ans : String) (hne : cids ≠ []) :
    filter_candidates db cids q ans ≠ [] := by
  unfold filter_candidates
  by_cases h : (raw_filter db cids q ans).isEmpty
  · rw [if_pos h]; exact hne
  · rw [if_neg h]
    simpa [List.isEmpty_iff] using h

theorem scan_next_cases (db : List Character) (cands : List Int) :
    ∀ (fuel : Nat) (idx : Int), 0 ≤ idx →
      scan_next db cands fuel idx = ScanResult.exhausted ∨
      ∃ idx' q, scan_next db cands fuel idx = ScanResult.found idx' q ∧
        idx ≤ idx' ∧ idx' < 6 := by
  intro fuel
  induction fuel with
  | zero => intro idx _; left; rfl
  | succ n ih =>
      intro idx hidx
      unfold scan_next
      by_cases hlt : idx < (questionTree.length : Int)
      · rw [if_pos hlt]
        have hlen : questionTree.length = 6 := rfl
        have hlt' : idx.toNat < questionTree.length := by omega
        obtain ⟨q, hq'⟩ : ∃ q, pyIndex questionTree idx = some q := by
          rw [pyIndex_nonneg _ _ hidx]
          exact ⟨_, List.get?_eq_get hlt'⟩
        rw [hq']
        dsimp only
        cases hc : q.condition with
        | none =>
            right
            exact ⟨idx, q, rfl, le_refl idx, by omega⟩
        | some cond =>
            dsimp only
            by_cases hcc : check_condition db cond cands
            · rw [if_pos hcc]
              right
              exact ⟨idx, q, rfl, le_refl idx, by omega⟩
            · rw [if_neg hcc]
              rcases ih (idx + 1) (by omega) with h | ⟨idx', q', h, hge, hlt6⟩
              · left; exact h
              · right; exact ⟨idx', q', h, by omega, hlt6⟩
      · rw [if_neg hlt]
        left; rfl

theorem answer_question_step (db : List Character) (qn : Int) (ans : String)
    (cids : List Int) (h1 : 1 ≤ qn) (h6 : qn ≤ 6) (hne : cids ≠ [])
    (hv : ∀ i ∈ cids, ∃ c ∈ db, c.id = i) :
    (∃ gs, answer_question db qn ans cids = some (GameResult.guess gs qn) ∧
        gs ≠ []) ∨
    (∃ q qn' cids', answer_question db qn ans cids =
        some (GameResult.nextQuestion q qn' cids'.length cids') ∧
        qn + 1 ≤ qn' ∧ qn' ≤ 6 ∧ cids' ≠ [] ∧
        ∀ i ∈ cids', ∃ c ∈ db, c.id = i) := by
  obtain ⟨q, hq⟩ := pyIndex_questionTree_some qn h1 h6
  have hnew_ne := filter_candidates_ne_nil db cids q ans hne
  have hnew_val := mem_filter_candidates_valid db cids q ans hv
  unfold answer_question
  rw [hq]
  dsimp only
  by_cases hguess : (filter_candidates db cids q ans).length ≤ 3 ∨ 6 ≤ qn
  · rw [if_pos hguess]
    obtain ⟨gs, hmk, _, hgne⟩ :=
      make_guess_spec db (filter_candidates db cids q ans) qn
    left
    exact ⟨gs, by rw [hmk], hgne hnew_ne hnew_val⟩
  · rw [if_neg hguess]
    rcases scan_next_cases db (filter_candidates db cids q ans) 16 qn
        (by omega) with hsc | ⟨idx', q', hsc, hge, hlt6⟩
    · rw [hsc]
      obtain ⟨gs, hmk, _, hgne⟩ :=
        make_guess_spec db (filter_candidates db cids q ans) qn
      left
      exact ⟨gs, by rw [hmk], hgne hnew_ne hnew_val⟩
    · rw [hsc]
      right
      exact ⟨q', idx' + 1, filter_candidates db cids q ans, rfl, by omega,
        by omega, hnew_ne, hnew_val⟩

theorem playAux_guess (db : List Character) :
    ∀ (answers : List String) (qn : Int) (cids : List Int) (r0 : Nat),
      1 ≤ qn → qn ≤ 6 → cids ≠ [] →
      (∀ i ∈ cids, ∃ c ∈ db, c.id = i) →
      (7 - qn).toNat ≤ answers.length →
      ∃ k gs, playAux db answers qn cids r0 = some (r0 + k, gs) ∧
        1 ≤ k ∧ k ≤ (7 - qn).toNat ∧ gs ≠ [] := by
  intro answers
  induction answers with
  | nil =>
      intro qn cids r0 h1 h6 _ _ hlen
      exfalso
      simp only [List.length_nil] at hlen
      omega
  | cons a rest ih =>
      intro qn cids r0 h1 h6 hne hv hlen
      rcases answer_question_step db qn a cids h1 h6 hne hv with
        ⟨gs, hres, hgs⟩ | ⟨q, qn', cids', hres, hq1, hq6, hcne, hcval⟩
      · refine ⟨1, gs, ?_, le_refl 1, by omega, hgs⟩
        unfold playAux
        rw [hres]
      · have hlen' : (7 - qn').toNat ≤ rest.length := by
          simp only [List.length_cons] at hlen
          omega
        obtain ⟨k, gs, hplay, hk1, hk6, hgs⟩ :=
          ih qn' cids' (r0 + 1) (by omega) hq6 hcne hcval hlen'
        refine ⟨k + 1, gs, ?_, by omega, by omega, hgs⟩
        unfold playAux
        rw [hres]
        dsimp only
        rw [hplay]
        congr 2
        omega

/-- C1: over any non-empty roster, threading the returned
`question_number` and `candidate_ids` through successive `answer_question`
calls reaches the guess status within at most 6 rounds, whatever the
answers, and the terminal result carries at least one guess. -/
theorem game_terminates (db : List Character) (answers : List String)
    (hdb : db ≠ []) (hlen : 6 ≤ answers.length) :
    ∃ rounds gs, play db answers = some (rounds, gs) ∧
      rounds ≤ 6 ∧ gs ≠ [] := by
  have hne : db.map (fun c => c.id) ≠ [] := by
    simpa using hdb
  have hv : ∀ i ∈ db.map (fun c => c.id), ∃ c ∈ db, c.id = i := by
    intro i hi
    simp only [List.mem_map] at hi
    obtain ⟨c, hc, rfl⟩ := hi
    exact ⟨c, hc, rfl⟩
  obtain ⟨k, gs, hplay, hk1, hk6, hgs⟩ :=
    playAux_guess db answers 1 (db.map (fun c => c.id)) 0 (by norm_num)
      (by norm_num) hne hv (by omega)
  refine ⟨k, gs, ?_, by omega, hgs⟩
  unfold play
  simpa using hplay

/-- Witness for `game_terminates`: a one-character roster with six
arbitrary answers produces a guess on the first round. -/
theorem game_terminates_witness :
    ∃ rounds gs, play [chA] ["a", "a", "a", "a", "a", "a"] =
        some (rounds, gs) ∧ rounds ≤ 6 ∧ gs ≠ [] :=
  game_terminates [chA] ["a", "a", "a", "a", "a", "a"]
    (List.cons_ne_nil _ _) (by decide)

end RecSys
